import Mathlib

/-!
# Shallow embedding of `src/twitter/search.py` (repen/twitter-api-client)

This file embeds the pagination core of `twitter/search.py`:
the page fetcher `Search.get`, the retry policy `Search.backoff`, the
pagination loop `Search.paginate`, and the cursor extractor
`Search.get_cursor`, together with the exception classes raised by them.

Python dynamic values are modelled as follows:
- the parsed JSON body of a response is abstracted by `SearchData`, whose
  fields record exactly the observations `search.py` makes of the body
  (via `data.get('errors')`, `find_key(data, 'entryId')`,
  `find_key(data, 'entries')` and `find_key(data, 'content')`;
  `find_key` itself lives in `twitter/util.py`, outside the embedded file,
  so its results are taken as the fields of this structure);
- a parsed entry dict is `Entry`, exposing its `entryId` and the `query`
  tag that `Search.get` writes into it;
- the cursor slot of the fetch triple is `Option String`: `none` is
  Python `None` (returned by `get_cursor` when no Bottom cursor exists),
  `some s` a string; Python truthiness of the slot is `cursorTruthy`;
- exceptions are the inductive `Exc`; `Exc.typeError` stands for the
  `TypeError` Python raises when `paginate` three-way-unpacks a `None`
  returned by `backoff`;
- the network is an oracle: a script mapping attempt indices (and, in the
  pagination loop, page indices) to the outcome of one `Search.get` call;
- `random.random()` is an oracle `jitter : ℕ → ℚ` indexed by the attempt;
- `await asyncio.sleep` / `time.sleep` calls are recorded in traces
  rather than performed.
-/

/-- One parsed result entry (a dict from an `entries` list of the
response). `entryId` is the dict's `entryId` value — `Search.get` keeps
only entries whose `entryId` matches `^(tweet|user)-` — and `query` is
the originating query text that `Search.get` writes into the dict
(`e['query'] = params['variables']['rawQuery']`, search.py:146-147). -/
structure Entry where
  entryId : String
  query : String
deriving DecidableEq, Repr

/-- One element of `find_key(data, 'content')` as read by
`Search.get_cursor` (search.py:150-153): its `cursorType` field
(`none` when absent) and its `value` field. -/
structure ContentNode where
  cursorType : Option String
  value : String
deriving DecidableEq, Repr

/-- Abstraction of a parsed JSON response body, recording exactly the
observations `search.py` makes of it:
- `errors`: the `errors` field, `[]` when absent or empty — Python's
  `if errors := data.get('errors')` is truthy iff this list is nonempty
  (search.py:160);
- `allEntryIds`: `find_key(data, 'entryId')`, every `entryId` value
  anywhere in the body, cursor entries included (search.py:165);
- `rawEntries`: the concatenation of all `entries` lists in the body,
  `[y for x in find_key(data, 'entries') for y in x]`, before the
  `^(tweet|user)-` filter (search.py:144);
- `contentNodes`: `find_key(data, 'content')` as consumed by
  `get_cursor` (search.py:150-153). -/
structure SearchData where
  errors : List String
  allEntryIds : List String
  rawEntries : List Entry
  contentNodes : List ContentNode
deriving DecidableEq, Repr

/-- The exceptions of `search.py`: `UnauthorizedError` (class at line 43),
`NotFoundError` (line 47), `NotCursorException` (line 39), any other
network/parse exception (`transient`, carrying its message), and the
`TypeError` raised when `paginate` unpacks a `None` result of `backoff`. -/
inductive Exc where
  | unauthorized
  | notFound
  | notCursor
  | transient (msg : String)
  | typeError
deriving DecidableEq, Repr

/-- The triple `(data, entries, cursor)` returned by `Search.get`. -/
abbrev FetchTriple := SearchData × List Entry × Option String

/-- An HTTP response as observed by `Search.get`: the status code and the
parsed body (`r.json()`). -/
structure HttpResponse where
  status : Nat
  body : SearchData
deriving DecidableEq, Repr

namespace Search

/-- Python truthiness of a cursor slot: `None` and `''` are falsy,
any other string truthy. Used by `paginate`'s `if cursor:` and
`if not cursor:` tests (search.py:92, 107). -/
def cursorTruthy : Option String → Bool
  | none => false
  | some s => !(s = "")

/-- The `^(tweet|user)-` test of search.py:144: `re.search` with a `^`
anchor is a case-sensitive prefix match. -/
def isTweetOrUser (entryId : String) : Bool :=
  entryId.startsWith "tweet-" || entryId.startsWith "user-"

/-- `Search.get_cursor` (search.py:150-153): the `value` of the first
content node whose `cursorType` equals `'Bottom'`; `None` if there is
none (the function falls off the end). -/
def get_cursor (data : SearchData) : Option String :=
  match data.contentNodes.find? (fun e => e.cursorType = some "Bottom") with
  | some e => some e.value
  | none => none

/-- `Search.get` (search.py:117-148), given the transport's response:
status 401 or 403 raises `UnauthorizedError` (lines 136-137), status 404
raises `NotFoundError` (lines 139-140); otherwise the body is parsed,
the Bottom cursor extracted, the entries filtered to those whose
`entryId` starts with `tweet-` or `user-`, and each entry is tagged with
the raw query text. -/
def get (r : HttpResponse) (rawQuery : String) : Except Exc FetchTriple :=
  if r.status = 401 ∨ r.status = 403 then .error .unauthorized
  else if r.status = 404 then .error .notFound
  else
    let data := r.body
    let cursor := get_cursor data
    let entries := (data.rawEntries.filter (fun e => isTweetOrUser e.entryId)).map
      (fun e => { e with query := rawQuery })
    .ok (data, entries, cursor)

/-- The value `backoff` hands back to `paginate`:
`triple data entries cursor` for an explicit `return`, where
`data = none` encodes the literal `[]` returned as the data slot of the
soft-empty-page result `return [], [], ''` (search.py:164) and
`data = some d` the response body of `return data, entries, cursor`
(search.py:167); `noneResult` is the implicit `None` returned when the
`for` loop of `backoff` completes all iterations without returning. -/
inductive BackoffOutcome where
  | triple (data : Option SearchData) (entries : List Entry) (cursor : Option String)
  | noneResult
deriving DecidableEq, Repr

instance {ε α : Type} [DecidableEq ε] [DecidableEq α] : DecidableEq (Except ε α) := fun x y =>
  match x, y with
  | .ok a, .ok b => if h : a = b then .isTrue (by rw [h]) else .isFalse (by simp [h])
  | .error a, .error b => if h : a = b then .isTrue (by rw [h]) else .isFalse (by simp [h])
  | .ok _, .error _ => .isFalse (by simp)
  | .error _, .ok _ => .isFalse (by simp)

/-- The observable behaviour of one `backoff` execution: its result
(value returned or exception raised), the list of performed
`await asyncio.sleep` durations in order, and the number of calls of the
wrapped operation `fn`. -/
structure BackoffRun where
  result : Except Exc BackoffOutcome
  sleeps : List ℚ
  attempts : ℕ
deriving DecidableEq, Repr

/-- The body of `Search.backoff`'s `for i in range(retries + 1)` loop
(search.py:157-178), from attempt index `i` with `remaining` iterations
left (`remaining = retries + 1 - i` at the top-level call):
- `remaining = 0`: the loop is exhausted, the function returns `None`;
- otherwise attempt `i` calls `fn i`:
  - on a value `(data, entries, cursor)`: a nonempty `errors` field
    returns `([], [], '')` at once (lines 160-164); else if the body has
    at least 2 distinct `entryId` values the triple is returned
    (lines 165-167); else the attempt is inconclusive and the loop just
    continues — no sleep;
  - `UnauthorizedError` is re-raised at once (lines 168-169);
  - any other exception is re-raised if `i == retries`, else
    `await asyncio.sleep(2 ** i + random.random())` precedes the next
    attempt (lines 170-178). -/
def backoffGo (fn : ℕ → Except Exc FetchTriple) (jitter : ℕ → ℚ) (retries : ℕ) :
    ℕ → ℕ → BackoffRun
  | _, 0 => { result := .ok .noneResult, sleeps := [], attempts := 0 }
  | i, remaining + 1 =>
    match fn i with
    | .ok (data, entries, cursor) =>
      if data.errors ≠ [] then
        { result := .ok (.triple none [] (some "")), sleeps := [], attempts := 1 }
      else if data.allEntryIds.dedup.length ≥ 2 then
        { result := .ok (.triple (some data) entries cursor), sleeps := [], attempts := 1 }
      else
        let rest := backoffGo fn jitter retries (i + 1) remaining
        { rest with attempts := rest.attempts + 1 }
    | .error e =>
      if e = .unauthorized then
        { result := .error .unauthorized, sleeps := [], attempts := 1 }
      else if i = retries then
        { result := .error e, sleeps := [], attempts := 1 }
      else
        let rest := backoffGo fn jitter retries (i + 1) remaining
        { result := rest.result, sleeps := (2 ^ i + jitter i) :: rest.sleeps,
          attempts := rest.attempts + 1 }

/-- `Search.backoff` (search.py:155-178): run the loop from attempt 0
with `retries + 1` iterations allowed. -/
def backoff (fn : ℕ → Except Exc FetchTriple) (jitter : ℕ → ℚ) (retries : ℕ) : BackoffRun :=
  backoffGo fn jitter retries 0 (retries + 1)

/-- The default retry budget: `kwargs.get('retries', 3)` (search.py:156). -/
def defaultRetries : ℕ := 3

/-- The merge of a page's entry ids into the dedup set:
`total |= set(find_key(entries, 'entryId'))` (search.py:100). -/
def dedupMerge (total : Finset String) (entries : List Entry) : Finset String :=
  total ∪ (entries.map (fun e => e.entryId)).toFinset

/-- Whether `len(total) >= limit` (search.py:102); `none` models the
default `limit = math.inf`, which no finite count reaches. -/
def reachedLimit (total : Finset String) : Option ℕ → Bool
  | none => false
  | some l => total.card ≥ l

/-- The outcome of one iteration of `paginate`'s `while True` loop. -/
inductive Step where
  | done (res : List Entry)
  | proceed (res : List Entry) (total : Finset String)
  | fail (e : Exc)
deriving DecidableEq

/-- The body of `Search.paginate`'s loop (search.py:91-115), after the
`backoff` call produced `out`:
- an exception from `backoff` propagates;
- a `None` result makes the three-way unpacking
  `data, entries, cursor = await self.backoff(...)` raise `TypeError`;
- otherwise the entries are appended to `res` (line 99) and their ids
  merged into `total` (line 100); if `len(entries) <= 2` or
  `len(total) >= limit`, the accumulated list is returned (lines
  102-105); else a falsy cursor raises `NotCursorException` (lines
  107-108); else the loop continues after the inter-page sleep. -/
def paginateStep (out : Except Exc BackoffOutcome) (res : List Entry)
    (total : Finset String) (limit : Option ℕ) : Step :=
  match out with
  | .error e => .fail e
  | .ok .noneResult => .fail .typeError
  | .ok (.triple _ entries cursor) =>
    let res' := res ++ entries
    let total' := dedupMerge total entries
    if entries.length ≤ 2 ∨ reachedLimit total' limit then .done res'
    else if !cursorTruthy cursor then .fail .notCursor
    else .proceed res' total'

/-- `Search.paginate`'s `while True` loop (search.py:91-115), driven by a
script giving each `Search.get` outcome per (page, attempt) and a jitter
oracle per (page, attempt). `fuel` bounds the number of iterations
modelled (`none` = the loop did not finish within the fuel); the request
parameters (cursor threading) are abstracted into the page index, since
page `p + 1`'s request is determined by page `p`'s cursor. -/
def paginateGo (script : ℕ → ℕ → Except Exc FetchTriple) (jitter : ℕ → ℕ → ℚ)
    (retries : ℕ) (limit : Option ℕ) :
    List Entry → Finset String → ℕ → ℕ → Option (Except Exc (List Entry))
  | _, _, _, 0 => none
  | res, total, page, fuel + 1 =>
    match paginateStep (backoff (script page) (jitter page) retries).result res total limit with
    | .done r => some (.ok r)
    | .fail e => some (.error e)
    | .proceed r t => paginateGo script jitter retries limit r t (page + 1) fuel

/-- `Search.paginate` (search.py:75-115): the loop from an empty result
list, an empty dedup set and the first page. -/
def paginate (script : ℕ → ℕ → Except Exc FetchTriple) (jitter : ℕ → ℕ → ℚ)
    (retries : ℕ) (limit : Option ℕ) (fuel : ℕ) : Option (Except Exc (List Entry)) :=
  paginateGo script jitter retries limit [] ∅ 0 fuel

/-- The fixed inter-page delay: `timeout = 10` slept at the end of each
continuing cycle (search.py:76, 115). -/
def interPageDelay : ℕ := 10

/-- The two waiting primitives the Python runtime offers at the loop's
suspension points: an `await` on the asyncio event loop, which suspends
only the awaiting task and lets other tasks of the loop run, and a
blocking call of `time.sleep`, which occupies the thread running the
event loop and thereby stalls every task scheduled on it. -/
inductive WaitPrimitive where
  | asyncAwait
  | blockingSleep
deriving DecidableEq, Repr

/-- The network call of the page fetcher is `await client.get(...)`
(search.py:122). -/
def networkCallWait : WaitPrimitive := .asyncAwait

/-- The backoff delay between retries is `await asyncio.sleep(t)`
(search.py:178). -/
def backoffDelayWait : WaitPrimitive := .asyncAwait

/-- The inter-page delay is `time.sleep(timeout)` (search.py:115), a
blocking call issued inside the `async def paginate` coroutine. -/
def interPageDelayWait : WaitPrimitive := .blockingSleep

/-- Whether a waiting primitive suspends only the issuing task: an
`await` does; a blocking `time.sleep` on the event-loop thread suspends
the whole process's asyncio loop, sibling paginators included. -/
def suspendsOnlyIssuer : WaitPrimitive → Bool
  | .asyncAwait => true
  | .blockingSleep => false

end Search

open Search

/-! ## Branch lemmas for the `backoff` loop -/

lemma backoffGo_unauth (fn : ℕ → Except Exc FetchTriple) (jitter : ℕ → ℚ)
    (retries i r : ℕ) (h : fn i = .error .unauthorized) :
    backoffGo fn jitter retries i (r + 1) =
      { result := .error .unauthorized, sleeps := [], attempts := 1 } := by
  simp [backoffGo, h]

lemma backoffGo_soft_empty (fn : ℕ → Except Exc FetchTriple) (jitter : ℕ → ℚ)
    (retries i r : ℕ) (d : SearchData) (es : List Entry) (c : Option String)
    (h : fn i = .ok (d, es, c)) (hd : d.errors ≠ []) :
    backoffGo fn jitter retries i (r + 1) =
      { result := .ok (.triple none [] (some "")), sleeps := [], attempts := 1 } := by
  simp [backoffGo, h, hd]

lemma backoffGo_conclusive (fn : ℕ → Except Exc FetchTriple) (jitter : ℕ → ℚ)
    (retries i r : ℕ) (d : SearchData) (es : List Entry) (c : Option String)
    (h : fn i = .ok (d, es, c)) (hd : d.errors = [])
    (hids : 2 ≤ d.allEntryIds.dedup.length) :
    backoffGo fn jitter retries i (r + 1) =
      { result := .ok (.triple (some d) es c), sleeps := [], attempts := 1 } := by
  simp [backoffGo, h, hd, hids]

lemma backoffGo_inconclusive (fn : ℕ → Except Exc FetchTriple) (jitter : ℕ → ℚ)
    (retries i r : ℕ) (d : SearchData) (es : List Entry) (c : Option String)
    (h : fn i = .ok (d, es, c)) (hd : d.errors = [])
    (hids : d.allEntryIds.dedup.length < 2) :
    backoffGo fn jitter retries i (r + 1) =
      { backoffGo fn jitter retries (i + 1) r with
        attempts := (backoffGo fn jitter retries (i + 1) r).attempts + 1 } := by
  simp [backoffGo, h, hd, Nat.not_le.mpr hids]

lemma backoffGo_error_last (fn : ℕ → Except Exc FetchTriple) (jitter : ℕ → ℚ)
    (retries r : ℕ) (e : Exc) (h : fn retries = .error e) (he : e ≠ .unauthorized) :
    backoffGo fn jitter retries retries (r + 1) =
      { result := .error e, sleeps := [], attempts := 1 } := by
  simp [backoffGo, h, he]

lemma backoffGo_error_step (fn : ℕ → Except Exc FetchTriple) (jitter : ℕ → ℚ)
    (retries i r : ℕ) (e : Exc) (h : fn i = .error e) (he : e ≠ .unauthorized)
    (hi : i ≠ retries) :
    backoffGo fn jitter retries i (r + 1) =
      { result := (backoffGo fn jitter retries (i + 1) r).result,
        sleeps := (2 ^ i + jitter i) :: (backoffGo fn jitter retries (i + 1) r).sleeps,
        attempts := (backoffGo fn jitter retries (i + 1) r).attempts + 1 } := by
  simp [backoffGo, h, he, hi]

lemma backoffGo_attempts_le (fn : ℕ → Except Exc FetchTriple) (jitter : ℕ → ℚ)
    (retries : ℕ) : ∀ r i, (backoffGo fn jitter retries i r).attempts ≤ r := by
  intro r
  induction r with
  | zero => intro i; simp [backoffGo]
  | succ r ih =>
    intro i
    rcases hfn : fn i with e | t
    · by_cases hu : e = .unauthorized
      · subst hu; rw [backoffGo_unauth fn jitter retries i r hfn]; simp
      · by_cases hi : i = retries
        · subst hi; rw [backoffGo_error_last fn jitter i r e hfn hu]; simp
        · rw [backoffGo_error_step fn jitter retries i r e hfn hu hi]
          exact Nat.succ_le_succ (ih (i + 1))
    · obtain ⟨d, es, c⟩ := t
      by_cases hd : d.errors = []
      · by_cases hids : 2 ≤ d.allEntryIds.dedup.length
        · rw [backoffGo_conclusive fn jitter retries i r d es c hfn hd hids]; simp
        · rw [backoffGo_inconclusive fn jitter retries i r d es c hfn hd (Nat.not_le.mp hids)]
          exact Nat.succ_le_succ (ih (i + 1))
      · rw [backoffGo_soft_empty fn jitter retries i r d es c hfn hd]; simp

lemma backoffGo_const_error (fn : ℕ → Except Exc FetchTriple) (jitter : ℕ → ℚ)
    (retries : ℕ) (e : Exc) (hfn : ∀ j, fn j = .error e) (he : e ≠ .unauthorized) :
    ∀ r i, i + r = retries →
      (backoffGo fn jitter retries i (r + 1)).result = .error e ∧
      (backoffGo fn jitter retries i (r + 1)).attempts = r + 1 ∧
      (backoffGo fn jitter retries i (r + 1)).sleeps.length = r := by
  intro r
  induction r with
  | zero =>
    intro i hi
    rw [Nat.add_zero] at hi; subst hi
    rw [backoffGo_error_last fn jitter i 0 e (hfn i) he]
    simp
  | succ r ih =>
    intro i hi
    have hilt : i ≠ retries := by omega
    rw [backoffGo_error_step fn jitter retries i (r + 1) e (hfn i) he hilt]
    have := ih (i + 1) (by omega)
    refine ⟨this.1, ?_, ?_⟩ <;> simp [this.2.1, this.2.2]

lemma backoffGo_all_inconclusive (fn : ℕ → Except Exc FetchTriple) (jitter : ℕ → ℚ)
    (retries : ℕ)
    (hfn : ∀ j, ∃ d es c, fn j = .ok (d, es, c) ∧ d.errors = [] ∧
      d.allEntryIds.dedup.length < 2) :
    ∀ r i, backoffGo fn jitter retries i r =
      { result := .ok .noneResult, sleeps := [], attempts := r } := by
  intro r
  induction r with
  | zero => intro i; simp [backoffGo]
  | succ r ih =>
    intro i
    obtain ⟨d, es, c, h, hd, hids⟩ := hfn i
    rw [backoffGo_inconclusive fn jitter retries i r d es c h hd hids, ih (i + 1)]

/-! ## Concrete fixtures (scripted fetchers used by the test-style theorems) -/

/-- An HTTP 404 response with an arbitrary (empty) body. -/
def resp404 : HttpResponse :=
  { status := 404, body := { errors := [], allEntryIds := [], rawEntries := [], contentNodes := [] } }

/-- A fixed jitter oracle standing for one draw of `random.random()`. -/
def halfJitter : ℕ → ℚ := fun _ => 1 / 2

/-- A zero jitter oracle for pagination runs (the jitter never matters
there because every scripted attempt succeeds on the first try). -/
def zeroJitter : ℕ → ℕ → ℚ := fun _ _ => 0

/-- A page of `n` result entries with distinct ids `pfx0, pfx1, ...`. -/
def mkPage (pfx : String) (n : ℕ) : List Entry :=
  (List.range n).map (fun k => { entryId := pfx ++ toString k, query := "q" })

/-- A response body whose `entryId` values are the given page ids plus
the two cursor entries a real timeline page carries (so `backoff`'s
distinct-id test sees at least 2 ids). -/
def pageData (ids : List String) : SearchData :=
  { errors := [], allEntryIds := ids ++ ["cursor-top-0", "cursor-bottom-0"],
    rawEntries := [], contentNodes := [] }

/-- A response body carrying an application-level `errors` field. -/
def softEmptyData : SearchData :=
  { errors := ["Denied"], allEntryIds := [], rawEntries := [], contentNodes := [] }

/-- A degenerate body: no `errors` field and a single distinct
`entryId`, so `backoff` treats the attempt as inconclusive. -/
def degenerateData : SearchData :=
  { errors := [], allEntryIds := ["a", "a"], rawEntries := [], contentNodes := [] }

/-- The scripted fetcher of the spec's pagination example: pages of
sizes 20, 20, 1 with cursors `"c1"`, `"c2"`, `""`. -/
def scriptPages : ℕ → ℕ → Except Exc FetchTriple
  | 0, _ => .ok (pageData ((mkPage "tweet-a" 20).map Entry.entryId), mkPage "tweet-a" 20, some "c1")
  | 1, _ => .ok (pageData ((mkPage "tweet-b" 20).map Entry.entryId), mkPage "tweet-b" 20, some "c2")
  | _, _ => .ok (pageData ["tweet-c0"], mkPage "tweet-c" 1, some "")

/-- A scripted fetcher whose first page is normal (20 entries, cursor
`"c1"`) and whose second page is a soft empty page (a successful
response carrying an `errors` field). -/
def scriptSoftSecond : ℕ → ℕ → Except Exc FetchTriple
  | 0, _ => .ok (pageData ((mkPage "tweet-a" 20).map Entry.entryId), mkPage "tweet-a" 20, some "c1")
  | _, _ => .ok (softEmptyData, [], none)

/-- A scripted fetcher returning a full page (20 entries) with an empty
cursor on every request. -/
def scriptNoCursor : ℕ → ℕ → Except Exc FetchTriple
  | _, _ => .ok (pageData ((mkPage "tweet-a" 20).map Entry.entryId), mkPage "tweet-a" 20, some "")

/-- A scripted operation raising `UnauthorizedError` on every call. -/
def fnUnauthorized : ℕ → Except Exc FetchTriple := fun _ => .error .unauthorized

/-- A scripted operation returning a soft empty page on every call. -/
def fnSoftEmpty : ℕ → Except Exc FetchTriple := fun _ => .ok (softEmptyData, [], none)

/-- A scripted operation returning a degenerate (inconclusive) page on
every call. -/
def fnDegenerate : ℕ → Except Exc FetchTriple := fun _ => .ok (degenerateData, [], none)

/-- A scripted operation raising a transient failure on every call. -/
def fnTransient : ℕ → Except Exc FetchTriple := fun _ => .error (.transient "timeout")

/-! ## The successive dedup-set values of a pagination run -/

/-- The successive values of `paginate`'s `total` set along a sequence
of pages, each obtained from the previous by the loop's only dedup
operation `dedupMerge` (`total |= set(find_key(entries, 'entryId'))`,
search.py:100). -/
def dedupTotals (init : Finset String) : List (List Entry) → List (Finset String)
  | [] => [init]
  | p :: ps => init :: dedupTotals (dedupMerge init p) ps

lemma dedupTotals_head (l : List (List Entry)) (b : Finset String) :
    ∃ t, dedupTotals b l = b :: t := by
  cases l <;> exact ⟨_, rfl⟩

lemma dedupMerge_subset (total : Finset String) (entries : List Entry) :
    total ⊆ dedupMerge total entries :=
  Finset.subset_union_left

lemma dedupTotals_chain (pages : List (List Entry)) (init : Finset String) :
    List.Chain' (· ≤ ·) ((dedupTotals init pages).map Finset.card) := by
  induction pages generalizing init with
  | nil => simp [dedupTotals]
  | cons p ps ih =>
    obtain ⟨t, ht⟩ := dedupTotals_head ps (dedupMerge init p)
    rw [show dedupTotals init (p :: ps) = init :: dedupTotals (dedupMerge init p) ps from rfl,
      ht, List.map_cons, List.map_cons, List.chain'_cons]
    constructor
    · exact Finset.card_le_card (dedupMerge_subset init p)
    · rw [← List.map_cons, ← ht]; exact ih (dedupMerge init p)

/-! ## Claims -/

/-- C1, counterexample: the fetch of a 404 response raises the
not-found failure, but `backoff` does NOT let it propagate untouched:
with the default budget it makes 4 attempts in total and performs three
backoff sleeps (1.5 s, 2.5 s, 4.5 s at jitter 0.5) before re-raising,
because `NotFoundError` is caught by the generic `except Exception`
handler of search.py:170-178 — only `UnauthorizedError` bypasses retry. -/
theorem C1_counterexample :
    (backoff (fun _ => get resp404 "q") halfJitter defaultRetries).result =
      .error .notFound ∧
    (backoff (fun _ => get resp404 "q") halfJitter defaultRetries).attempts = 4 ∧
    (backoff (fun _ => get resp404 "q") halfJitter defaultRetries).sleeps =
      [3 / 2, 5 / 2, 9 / 2] := by
  have hfn : ∀ j : ℕ, (fun _ : ℕ => get resp404 "q") j = Except.error Exc.notFound := by
    intro j
    show get resp404 "q" = Except.error Exc.notFound
    decide
  have hne : Exc.notFound ≠ Exc.unauthorized := by decide
  rw [backoff, defaultRetries,
    backoffGo_error_step _ halfJitter 3 0 3 _ (hfn 0) hne (by decide),
    backoffGo_error_step _ halfJitter 3 1 2 _ (hfn 1) hne (by decide),
    backoffGo_error_step _ halfJitter 3 2 1 _ (hfn 2) hne (by decide),
    backoffGo_error_last _ halfJitter 3 0 _ (hfn 3) hne]
  refine ⟨rfl, rfl, ?_⟩
  norm_num [halfJitter]

/-- C1, amended: every fetch observing HTTP status 404 raises the
not-found failure, but the backoff policy treats it like any other
non-authorization failure: when every attempt observes 404, all
`retries + 1` attempts are made, a backoff delay follows each non-final
attempt, and the not-found failure propagates only from the last one. -/
theorem C1_notFound_retried (r : HttpResponse) (q : String) (jitter : ℕ → ℚ)
    (retries : ℕ) (h : r.status = 404) :
    get r q = .error .notFound ∧
    (backoff (fun _ => get r q) jitter retries).result = .error .notFound ∧
    (backoff (fun _ => get r q) jitter retries).attempts = retries + 1 ∧
    (backoff (fun _ => get r q) jitter retries).sleeps.length = retries := by
  have hget : get r q = .error .notFound := by
    unfold Search.get
    simp [h]
  have hmain := backoffGo_const_error (fun _ => get r q) jitter retries .notFound
    (fun _ => hget) (by simp) retries 0 (by omega)
  exact ⟨hget, hmain.1, hmain.2.1, hmain.2.2⟩

theorem C1_witness :
    get resp404 "q" = .error .notFound ∧
    (backoff (fun _ => get resp404 "q") halfJitter 3).result = .error .notFound ∧
    (backoff (fun _ => get resp404 "q") halfJitter 3).attempts = 3 + 1 ∧
    (backoff (fun _ => get resp404 "q") halfJitter 3).sleeps.length = 3 :=
  C1_notFound_retried resp404 "q" halfJitter 3 (by decide)

/-- C2: of the three suspension points of the pagination loop, the
network call (`await client.get`, search.py:122) and the backoff delay
(`await asyncio.sleep`, search.py:178) suspend only the issuing task,
but the fixed 10-unit inter-page delay is the blocking call
`time.sleep(timeout)` (search.py:115) issued inside the `async def`
coroutine: it stalls the event-loop thread and with it every sibling
paginator, contradicting the claim. -/
theorem C2_interPage_blocking :
    suspendsOnlyIssuer interPageDelayWait = false ∧
    suspendsOnlyIssuer networkCallWait = true ∧
    suspendsOnlyIssuer backoffDelayWait = true ∧
    interPageDelay = 10 := by
  decide

/-- C3: when every attempt of `backoff` returns without raising but with
no `errors` field and fewer than 2 distinct `entryId` values, the loop
exhausts all `retries + 1` attempts and the function returns `None`
instead of a triple, so `paginate`'s three-way unpacking of the result
raises a `TypeError`. -/
theorem C3_backoff_none (fn : ℕ → Except Exc FetchTriple) (jitter : ℕ → ℚ)
    (retries : ℕ) (res : List Entry) (total : Finset String) (limit : Option ℕ)
    (h : ∀ j, ∃ d es c, fn j = .ok (d, es, c) ∧ d.errors = [] ∧
      d.allEntryIds.dedup.length < 2) :
    (backoff fn jitter retries).result = .ok .noneResult ∧
    (backoff fn jitter retries).attempts = retries + 1 ∧
    paginateStep (backoff fn jitter retries).result res total limit = .fail .typeError := by
  rw [backoff, backoffGo_all_inconclusive fn jitter retries h (retries + 1) 0]
  exact ⟨rfl, rfl, rfl⟩

theorem C3_witness :
    (backoff fnDegenerate halfJitter 3).result = .ok .noneResult ∧
    (backoff fnDegenerate halfJitter 3).attempts = 3 + 1 ∧
    paginateStep (backoff fnDegenerate halfJitter 3).result [] ∅ none = .fail .typeError :=
  C3_backoff_none fnDegenerate halfJitter 3 [] ∅ none
    (fun _ => ⟨degenerateData, [], none, rfl, rfl, by decide⟩)

/-- C4, counterexample: a crawl whose first page is a normal 20-entry
page and whose second page is a soft empty page (a successful response
carrying an `errors` field) terminates without raising but returns the
20 accumulated entries of page 1 — not an empty result list as the
claim requires of every crawl that encounters a soft empty page. -/
theorem C4_counterexample :
    paginate scriptSoftSecond zeroJitter defaultRetries none 10 =
      some (.ok (mkPage "tweet-a" 20)) ∧
    scriptSoftSecond 1 0 = .ok (softEmptyData, [], none) ∧
    softEmptyData.errors = ["Denied"] ∧
    mkPage "tweet-a" 20 ≠ [] := by
  decide

/-- C4, amended: a cycle whose fetch produces a soft empty page makes
the paginator terminate without raising, returning the entries
accumulated on the earlier pages — an empty list exactly when the soft
empty page is the first page of the crawl. -/
theorem C4_soft_empty_accumulated (script : ℕ → ℕ → Except Exc FetchTriple)
    (jitter : ℕ → ℕ → ℚ) (retries : ℕ) (limit : Option ℕ) (res : List Entry)
    (total : Finset String) (page fuel : ℕ) (d : SearchData) (es : List Entry)
    (c : Option String) (h : script page 0 = .ok (d, es, c)) (hd : d.errors ≠ []) :
    paginateGo script jitter retries limit res total page (fuel + 1) = some (.ok res) := by
  rw [paginateGo, backoff, backoffGo_soft_empty (script page) (jitter page)
    retries 0 retries d es c h hd]
  simp [paginateStep]

theorem C4_witness :
    paginateGo scriptSoftSecond zeroJitter 3 none (mkPage "tweet-a" 20) ∅ 1 10 =
      some (.ok (mkPage "tweet-a" 20)) :=
  C4_soft_empty_accumulated scriptSoftSecond zeroJitter 3 none (mkPage "tweet-a" 20)
    ∅ 1 9 softEmptyData [] none rfl (by decide)

/-- C5: a cycle of the pagination loop terminates in `DONE`, returning
the accumulated list extended with the just-fetched page (accumulation
precedes the check), exactly when that page has at most 2 entries or
the merged distinct-id count reaches the limit; and on the spec's
scripted fetcher (pages of sizes 20, 20, 1 with cursors `"c1"`, `"c2"`,
`""`, unbounded limit) the paginator stops after the third page with all
41 entries of the three pages. -/
theorem C5_termination :
    (∀ (d : Option SearchData) (entries : List Entry) (cursor : Option String)
      (res : List Entry) (total : Finset String) (limit : Option ℕ),
      paginateStep (.ok (.triple d entries cursor)) res total limit =
          .done (res ++ entries) ↔
        (entries.length ≤ 2 ∨ reachedLimit (dedupMerge total entries) limit = true)) ∧
    paginate scriptPages zeroJitter defaultRetries none 10 =
      some (.ok (mkPage "tweet-a" 20 ++ mkPage "tweet-b" 20 ++ mkPage "tweet-c" 1)) := by
  constructor
  · intro d entries cursor res total limit
    simp only [paginateStep]
    split_ifs with h1 h2 <;> simp_all
  · decide

/-- C6: a cycle whose page has more than 2 entries, whose merged
distinct-id count is below the limit and whose cursor is falsy raises
`NotCursorException`, a failure kind distinct from the authorization,
not-found and transient kinds; it is raised by `paginate` after
`backoff` has already returned, so no backoff retry ever applies to it
(the scripted no-cursor crawl ends in the error with its only cycle's
backoff making a single attempt and sleeping never). -/
theorem C6_no_cursor_error (d : Option SearchData) (entries : List Entry)
    (cursor : Option String) (res : List Entry) (total : Finset String)
    (limit : Option ℕ) (h1 : 2 < entries.length)
    (h2 : reachedLimit (dedupMerge total entries) limit = false)
    (h3 : cursorTruthy cursor = false) :
    paginateStep (.ok (.triple d entries cursor)) res total limit = .fail .notCursor ∧
    Exc.notCursor ≠ Exc.unauthorized ∧ Exc.notCursor ≠ Exc.notFound ∧
    (∀ m, Exc.notCursor ≠ Exc.transient m) ∧
    paginate scriptNoCursor zeroJitter defaultRetries none 10 =
      some (.error .notCursor) ∧
    (backoff (scriptNoCursor 0) (zeroJitter 0) defaultRetries).attempts = 1 ∧
    (backoff (scriptNoCursor 0) (zeroJitter 0) defaultRetries).sleeps = [] := by
  refine ⟨?_, by decide, by decide, fun m => by simp, by decide, by decide, by decide⟩
  have hA : ¬(entries.length ≤ 2 ∨ reachedLimit (dedupMerge total entries) limit = true) := by
    rintro (h | h)
    · omega
    · rw [h2] at h
      exact absurd h (by simp)
  have hB : (!cursorTruthy cursor) = true := by rw [h3]; rfl
  simp only [paginateStep]
  rw [if_neg hA, if_pos hB]

theorem C6_witness :
    paginateStep (.ok (.triple none (mkPage "tweet-a" 20) (some ""))) [] ∅ none =
      .fail .notCursor ∧
    paginate scriptNoCursor zeroJitter defaultRetries none 10 =
      some (.error .notCursor) :=
  ⟨(C6_no_cursor_error none (mkPage "tweet-a" 20) (some "") [] ∅ none
      (by decide) (by decide) (by decide)).1,
   (C6_no_cursor_error none (mkPage "tweet-a" 20) (some "") [] ∅ none
      (by decide) (by decide) (by decide)).2.2.2.2.1⟩

/-- C7: at any attempt of `backoff` whose wrapped operation raises the
authorization failure, the failure is re-raised immediately — exactly
one call is made from that point, no sleep is performed — however many
loop iterations remain; in particular a first-call authorization
failure makes the whole `backoff` execution re-raise with zero delays. -/
theorem C7_unauthorized_immediate (fn : ℕ → Except Exc FetchTriple) (jitter : ℕ → ℚ)
    (retries i remaining : ℕ) (h : fn i = .error .unauthorized) :
    backoffGo fn jitter retries i (remaining + 1) =
      { result := .error .unauthorized, sleeps := [], attempts := 1 } ∧
    (fn 0 = .error .unauthorized →
      backoff fn jitter retries =
        { result := .error .unauthorized, sleeps := [], attempts := 1 }) := by
  refine ⟨backoffGo_unauth fn jitter retries i remaining h, fun h0 => ?_⟩
  rw [backoff, backoffGo_unauth fn jitter retries 0 retries h0]

theorem C7_witness :
    backoffGo fnUnauthorized halfJitter 3 2 5 =
      { result := .error .unauthorized, sleeps := [], attempts := 1 } ∧
    backoff fnUnauthorized halfJitter 3 =
      { result := .error .unauthorized, sleeps := [], attempts := 1 } :=
  ⟨(C7_unauthorized_immediate fnUnauthorized halfJitter 3 2 4 rfl).1,
   (C7_unauthorized_immediate fnUnauthorized halfJitter 3 2 4 rfl).2 rfl⟩

/-- C8: at any attempt of `backoff` whose wrapped operation succeeds
with a raw response carrying a nonempty `errors` field, `backoff`
returns the soft-empty triple `([], [], '')` immediately: one call, no
sleep, whatever budget remains; in particular a first-call soft empty
page decides the whole `backoff` execution. -/
theorem C8_soft_empty_immediate (fn : ℕ → Except Exc FetchTriple) (jitter : ℕ → ℚ)
    (retries i remaining : ℕ) (d : SearchData) (es : List Entry) (c : Option String)
    (h : fn i = .ok (d, es, c)) (hd : d.errors ≠ []) :
    backoffGo fn jitter retries i (remaining + 1) =
      { result := .ok (.triple none [] (some "")), sleeps := [], attempts := 1 } ∧
    (∀ d0 es0 c0, fn 0 = .ok (d0, es0, c0) → d0.errors ≠ [] →
      backoff fn jitter retries =
        { result := .ok (.triple none [] (some "")), sleeps := [], attempts := 1 }) := by
  refine ⟨backoffGo_soft_empty fn jitter retries i remaining d es c h hd,
    fun d0 es0 c0 h0 hd0 => ?_⟩
  rw [backoff, backoffGo_soft_empty fn jitter retries 0 retries d0 es0 c0 h0 hd0]

theorem C8_witness :
    backoffGo fnSoftEmpty halfJitter 3 1 4 =
      { result := .ok (.triple none [] (some "")), sleeps := [], attempts := 1 } ∧
    backoff fnSoftEmpty halfJitter 3 =
      { result := .ok (.triple none [] (some "")), sleeps := [], attempts := 1 } :=
  ⟨(C8_soft_empty_immediate fnSoftEmpty halfJitter 3 1 3 softEmptyData [] none rfl
      (by decide)).1,
   (C8_soft_empty_immediate fnSoftEmpty halfJitter 3 1 3 softEmptyData [] none rfl
      (by decide)).2 softEmptyData [] none rfl (by decide)⟩

/-- C9: `backoff` makes at most `retries + 1` attempts (the default
budget is `retries = 3`); a retryable (non-authorization) failure on an
attempt `i` other than the last is followed by a sleep of exactly
`2 ^ i + jitter i` before the loop continues — a duration inside
`[2 ^ i, 2 ^ i + 1)` whenever the jitter draw lies in `[0, 1)` — and a
retryable failure on the last attempt propagates to the caller with no
further sleep. -/
theorem C9_retry_budget (fn : ℕ → Except Exc FetchTriple) (jitter : ℕ → ℚ) (retries : ℕ) :
    (backoff fn jitter retries).attempts ≤ retries + 1 ∧
    defaultRetries = 3 ∧
    (∀ i r e, fn i = .error e → e ≠ .unauthorized → i ≠ retries →
      backoffGo fn jitter retries i (r + 1) =
        { result := (backoffGo fn jitter retries (i + 1) r).result,
          sleeps := (2 ^ i + jitter i) :: (backoffGo fn jitter retries (i + 1) r).sleeps,
          attempts := (backoffGo fn jitter retries (i + 1) r).attempts + 1 }) ∧
    (∀ r e, fn retries = .error e → e ≠ .unauthorized →
      backoffGo fn jitter retries retries (r + 1) =
        { result := .error e, sleeps := [], attempts := 1 }) ∧
    (∀ i, 0 ≤ jitter i → jitter i < 1 →
      (2 : ℚ) ^ i ≤ 2 ^ i + jitter i ∧ (2 : ℚ) ^ i + jitter i < 2 ^ i + 1) := by
  refine ⟨backoffGo_attempts_le fn jitter retries (retries + 1) 0, rfl,
    fun i r e h he hi => backoffGo_error_step fn jitter retries i r e h he hi,
    fun r e h he => backoffGo_error_last fn jitter retries r e h he,
    fun i h0 h1 => ⟨by linarith, by linarith⟩⟩

theorem C9_witness :
    (backoff fnTransient halfJitter 3).attempts ≤ 3 + 1 ∧
    backoffGo fnTransient halfJitter 3 3 1 =
      { result := .error (.transient "timeout"), sleeps := [], attempts := 1 } :=
  ⟨(C9_retry_budget fnTransient halfJitter 3).1,
   (C9_retry_budget fnTransient halfJitter 3).2.2.2.1 0 (.transient "timeout") rfl
     (by decide)⟩

/-- C10: the dedup set only grows — every merge of a page's ids extends
the set and cannot lower its size — and along any sequence of pages the
successive total counts of distinct `entryId` values form a
non-decreasing chain. -/
theorem C10_dedup_monotone :
    (∀ (total : Finset String) (entries : List Entry),
      total ⊆ dedupMerge total entries ∧
      total.card ≤ (dedupMerge total entries).card) ∧
    (∀ (pages : List (List Entry)) (init : Finset String),
      List.Chain' (· ≤ ·) ((dedupTotals init pages).map Finset.card)) :=
  ⟨fun total entries => ⟨dedupMerge_subset total entries,
    Finset.card_le_card (dedupMerge_subset total entries)⟩,
   fun pages init => dedupTotals_chain pages init⟩
